import Mathlib

set_option maxRecDepth 8192

/-!
Verification development for the SimpleRagAppDocumentReader repository.

The repository contains two near-duplicate orchestration implementations of
the same robot-team pipeline:

* `src/book_robot_langgraph.py` (`BookRobotTeam`, a declarative graph with a
  conditional edge), embedded below in namespace `Langgraph`;
* `src/book_robot_with_graph_flow.py` (`RobotKingdom`, a message-passing loop
  driven by a `next_robot` field and a `max_steps = 10` guard), embedded in
  namespace `GraphFlow`.

Python strings are modelled as Lean `String` (ASCII case mapping); Python
truthiness of a string `s` is `s ≠ ""`, of the `memory_box` object it is
`Option.isSome`.  The external collaborators (`CharacterTextSplitter`,
`Chroma`) are not part of the repository; they are modelled from the spec as
deterministic pure functions, see `splitText` and `simSearch`.
-/

/-! ## Python string primitives -/

/-- Check that `pre` is a prefix of `l` (list version of Python `startswith`). -/
def startsWithL {α : Type} [DecidableEq α] : List α → List α → Bool
  | _, [] => true
  | [], _ :: _ => false
  | a :: as, p :: ps => a = p && startsWithL as ps

/-- Check that `needle` occurs contiguously inside `hay` (list form). -/
def hasSubL {α : Type} [DecidableEq α] : List α → List α → Bool
  | [], needle => needle.isEmpty
  | a :: t, needle => startsWithL (a :: t) needle || hasSubL t needle

/-- Python `needle in hay` for strings: substring containment. -/
def containsSub (hay needle : String) : Bool :=
  hasSubL hay.toList needle.toList

/-- Python `any(word in q for word in ws)`. -/
def anyWordIn (q : String) (ws : List String) : Bool :=
  ws.any (fun w => containsSub q w)

/-- Python `str.lower()` (ASCII model, character by character). -/
def pyLower (s : String) : String := String.mk (s.toList.map Char.toLower)

/-- Python `str.upper()` (ASCII model, character by character). -/
def pyUpper (s : String) : String := String.mk (s.toList.map Char.toUpper)

/-- Split a character list at every separator, keeping empty pieces;
`acc` holds the reversed characters of the piece being read. -/
def splitChars (p : Char → Bool) : List Char → List Char → List String
  | [], acc => [String.mk acc.reverse]
  | c :: rest, acc =>
    if p c then String.mk acc.reverse :: splitChars p rest []
    else splitChars p rest (c :: acc)

/-- Python `str.split()` with no argument: split on whitespace runs,
dropping empty pieces. -/
def pySplitWs (s : String) : List String :=
  (splitChars Char.isWhitespace s.toList []).filter (fun p => p ≠ "")

/-- Python `str.split('.')`: split at every dot, keeping empty pieces. -/
def pySplitDot (s : String) : List String :=
  splitChars (fun c => c = '.') s.toList []

/-- Python `str.strip(chars)`: drop leading and trailing characters
belonging to `cs`. -/
def pyStrip (s : String) (cs : List Char) : String :=
  String.mk (((s.toList.dropWhile (fun c => cs.contains c)).reverse.dropWhile
    (fun c => cs.contains c)).reverse)

/-- Python `str.strip()` with no argument: trim whitespace at both ends. -/
def pyStripWs (s : String) : String :=
  String.mk (((s.toList.dropWhile Char.isWhitespace).reverse.dropWhile
    Char.isWhitespace).reverse)

/-- Helper for `pyIstitle`: walk characters tracking whether the previous
character was cased, and whether any cased character was seen. -/
def pyIstitleAux : List Char → Bool → Bool → Bool
  | [], _, found => found
  | c :: rest, prevCased, found =>
    if c.isUpper then
      if prevCased then false else pyIstitleAux rest true true
    else if c.isLower then
      if prevCased then pyIstitleAux rest true found else false
    else pyIstitleAux rest false found

/-- Python `str.istitle()` (ASCII model). -/
def pyIstitle (s : String) : Bool := pyIstitleAux s.toList false false

/-- Python `str.isalpha()` (ASCII model). -/
def pyIsalpha (s : String) : Bool :=
  !s.isEmpty && s.toList.all Char.isAlpha

/-- Helper for `pyTitle`: capitalize the first letter of each alphabetic
run, lowercase the rest. -/
def pyTitleAux : List Char → Bool → List Char
  | [], _ => []
  | c :: rest, prevAlpha =>
    (if c.isAlpha then (if prevAlpha then c.toLower else c.toUpper) else c)
      :: pyTitleAux rest c.isAlpha

/-- Python `str.title()` (ASCII model). -/
def pyTitle (s : String) : String := String.mk (pyTitleAux s.toList false)

/-- Python `str.startswith(pre)`. -/
def pyStartswith (s pre : String) : Bool := startsWithL s.toList pre.toList

/-! ## External collaborators, modelled from the spec -/

/-- Helper for `splitText`: fixed-width sliding window over characters,
window 500, step 450 (overlap 50), driven by fuel for structural recursion. -/
def chunkLoop : Nat → List Char → List (List Char)
  | 0, _ => []
  | n + 1, cs =>
    if cs.length ≤ 500 then [cs]
    else cs.take 500 :: chunkLoop n (cs.drop 450)

/-- Modelled from the spec: the source delegates chunking to langchain's
`CharacterTextSplitter(chunk_size=500, chunk_overlap=50)`, which is not in
`src/`; spec section 6 fixes the contract as a fixed-width sliding window of
size 500 with overlap 50, yielding zero chunks on the empty document. -/
def splitText (s : String) : List String :=
  if s.isEmpty then []
  else (chunkLoop (s.length + 1) s.toList).map (fun l => String.mk l)

/-- Modelled from the spec: the source delegates retrieval to a `Chroma`
vector store, not in `src/`; spec sections 2 and 6 treat `TextIndex.query`
as an opaque, deterministic nearest-neighbor query returning at most `k`
stored chunks.  We model it as taking the first `k` stored chunks. -/
def simSearch (idx : List String) (_q : String) (k : Nat) : List String :=
  idx.take k

/-! ## The LangGraph implementation (`src/book_robot_langgraph.py`) -/

namespace Langgraph

/-- The shared state that flows through the graph
(`BookRobotState`, `book_robot_langgraph.py` lines 16-39). -/
structure BookRobotState where
  question : String
  book_content : String
  book_chunks : List String
  relevant_info : String
  question_type : String
  analysis : String
  librarian_response : String
  detective_response : String
  writer_response : String
  wisdom_response : String
  final_answer : String
  next_action : String
  step_count : Nat
deriving DecidableEq

/-- The initial state built by `process_book` / `ask_question`
(all string fields empty except `question` and `book_content`). -/
def initState (q bc : String) : BookRobotState :=
  { question := q, book_content := bc, book_chunks := [], relevant_info := "",
    question_type := "", analysis := "", librarian_response := "",
    detective_response := "", writer_response := "", wisdom_response := "",
    final_answer := "", next_action := "", step_count := 0 }

/-- `BookRobotTeam.librarian_node` (lines 108-141).  The `memory_box` is the
team-level persistent index (`Option` of the stored chunks): it is built only
when `book_content` is truthy and no box exists yet; retrieval runs only when
`question` is truthy and a box exists. -/
def librarian_node (mb : Option (List String)) (st : BookRobotState) :
    Option (List String) × BookRobotState :=
  let built :=
    if st.book_content ≠ "" ∧ mb = none then
      let chunks := splitText st.book_content
      (some chunks, { st with book_chunks := chunks })
    else (mb, st)
  let mb1 := built.1
  let st1 := built.2
  let relevant_chunks :=
    if st1.question ≠ "" ∧ mb1.isSome then
      simSearch (mb1.getD []) st1.question 3
    else []
  let relevant_info :=
    if st1.question ≠ "" ∧ mb1.isSome then
      String.intercalate "\n\n" relevant_chunks
    else ""
  let found := if mb1.isSome then relevant_chunks.length else 0
  (mb1,
   { st1 with
       relevant_info := relevant_info,
       librarian_response :=
         "📚 Found " ++ toString found ++
           " relevant book sections about your question.",
       step_count := st1.step_count + 1 })

/-- `BookRobotTeam.detective_node` (lines 143-187): the `if/elif` keyword
classification chain. -/
def detective_node (st : BookRobotState) : BookRobotState :=
  let question_lower := pyLower st.question
  let qa :=
    if anyWordIn question_lower ["who", "character", "person"] then
      ("CHARACTER_IDENTIFICATION",
       "This question asks about people or characters in the story.")
    else if anyWordIn question_lower ["what", "describe", "explain"] then
      ("DESCRIPTION_REQUEST",
       "This question wants a description or explanation of something.")
    else if anyWordIn question_lower ["where", "place", "location", "setting"] then
      ("LOCATION_INQUIRY",
       "This question is about places or settings in the story.")
    else if anyWordIn question_lower ["why", "reason", "because", "purpose"] then
      ("REASONING_QUESTION",
       "This is a complex question that needs deep reasoning and analysis.")
    else if anyWordIn question_lower ["how", "method", "way", "process"] then
      ("PROCESS_QUESTION",
       "This question asks about how something happens or works.")
    else if anyWordIn question_lower ["summarize", "summary", "overview"] then
      ("SUMMARY_REQUEST",
       "This question wants a summary or overview.")
    else
      ("GENERAL_QUESTION",
       "This is a general question about the book content.")
  { st with
      question_type := qa.1,
      analysis := qa.2,
      detective_response := "🕵️ Analysis complete: " ++ qa.1 ++ ". " ++ qa.2,
      step_count := st.step_count + 1 }

/-- `BookRobotTeam._route_after_detective` (lines 93-102): the conditional
edge.  Note that it re-inspects the raw question and is independent of the
`question_type` the detective assigned. -/
def route_after_detective (st : BookRobotState) : String :=
  if anyWordIn (pyLower st.question)
      ["why", "analyze", "meaning", "significance", "interpret"] then
    "wisdom"
  else
    "writer"

/-- `BookRobotTeam._write_character_response` (lines 290-297). -/
def write_character_response (text : String) : String :=
  let words := pySplitWs text
  let potential_names :=
    (words.filter (fun w => pyIstitle w && w.length > 2 && pyIsalpha w)).map
      (fun w => pyStrip w ['.', ',', '!', '?'])
  match potential_names with
  | main_character :: _ =>
      "✍️ **Character Analysis**: Based on the book, the main character appears to be **"
        ++ main_character ++
        "**. The narrative centers around their experiences and development throughout the story."
  | [] =>
      "✍️ **Character Analysis**: The text discusses various characters, with their roles and relationships being central to the narrative."

/-- `BookRobotTeam._write_description_response` (lines 299-300). -/
def write_description_response (_question text : String) : String :=
  "✍️ **Detailed Description**: " ++ text.take 300 ++
    "...\n\nThis passage provides rich context and imagery that directly relates to your question."

/-- `BookRobotTeam._write_location_response` (lines 302-303). -/
def write_location_response (text : String) : String :=
  "✍️ **Setting Analysis**: The story takes place in the world described in the text:\n\n"
    ++ text.take 250 ++
    "...\n\nThe setting plays a crucial role in shaping the narrative."

/-- `BookRobotTeam._write_summary_response` (lines 305-308). -/
def write_summary_response (text : String) : String :=
  let sentences :=
    (((pySplitDot text).map pyStripWs).filter (fun s => s ≠ "")).take 3
  let summary := String.intercalate ". " sentences ++ "."
  "✍️ **Summary**: " ++ summary

/-- `BookRobotTeam._write_general_response` (lines 310-311). -/
def write_general_response (_question text : String) : String :=
  "✍️ **Response**: Based on the book content, here\x27s what\x27s most relevant to your question:\n\n"
    ++ text.take 300 ++ "..."

/-- `BookRobotTeam.writer_node` (lines 189-215). -/
def writer_node (st : BookRobotState) : BookRobotState :=
  let response :=
    if st.question_type = "CHARACTER_IDENTIFICATION" then
      write_character_response st.relevant_info
    else if st.question_type = "DESCRIPTION_REQUEST" then
      write_description_response st.question st.relevant_info
    else if st.question_type = "LOCATION_INQUIRY" then
      write_location_response st.relevant_info
    else if st.question_type = "SUMMARY_REQUEST" then
      write_summary_response st.relevant_info
    else
      write_general_response st.question st.relevant_info
  { st with
      writer_response := response,
      step_count := st.step_count + 1 }

/-- `BookRobotTeam.wisdom_node` (lines 217-245). -/
def wisdom_node (st : BookRobotState) : BookRobotState :=
  let wisdom_response :=
    "🧠 **Deep Wisdom Analysis**\n\n**Your Question**: " ++ st.question ++
      "\n\n**Deeper Context**: Looking beyond the surface, this " ++
      String.map (fun c => if c = '_' then ' ' else c) (pyLower st.question_type) ++
      " touches on important themes in the narrative.\n\n**Key Insights from the Text**:\n"
      ++ st.relevant_info.take 400 ++
      "...\n\n**Philosophical Consideration**: The answer involves understanding both the literal events and their symbolic significance within the broader story context.\n\n**Thoughtful Reflection**: Great literature often contains layers of meaning. Your question invites us to explore not just what happens, but why it matters in the larger tapestry of the story."
  { st with
      wisdom_response := wisdom_response,
      step_count := st.step_count + 1 }

/-- The `team_reports` list assembled by `BookRobotTeam.king_node`
(lines 253-266): the four entries are checked for truthiness in a fixed
textual order. -/
def king_team_reports (st : BookRobotState) : List String :=
  (if st.librarian_response ≠ ""
   then ["📚 **Librarian**: " ++ st.librarian_response] else []) ++
  (if st.detective_response ≠ ""
   then ["🕵️ **Detective**: " ++ st.detective_response] else []) ++
  (if st.writer_response ≠ ""
   then ["✍️ **Writer**: " ++ st.writer_response] else []) ++
  (if st.wisdom_response ≠ ""
   then ["🧠 **Wisdom**: " ++ st.wisdom_response] else [])

/-- `BookRobotTeam.king_node` (lines 247-284). -/
def king_node (st : BookRobotState) : BookRobotState :=
  let final_answer :=
    "👑 **ROYAL TEAM RESPONSE**\n\n**Your Question**: " ++ st.question ++
      "\n\n**Team Analysis Summary**:\n" ++
      String.intercalate "\n" (king_team_reports st) ++
      "\n\n**Final Royal Answer**: Based on my expert team\x27s collaborative analysis, here is the comprehensive response to your inquiry about the book."
  { st with
      final_answer := final_answer,
      step_count := st.step_count + 1 }

/-- The edge table of `BookRobotTeam._build_graph` (lines 56-91):
START → librarian → detective → (conditional) → writer | wisdom → king → END.
The conditional edge consults `route_after_detective` on the state the
detective produced. -/
def lang_next_node (node : String) (st : BookRobotState) : Option String :=
  if node = "START" then some "librarian"
  else if node = "librarian" then some "detective"
  else if node = "detective" then some (route_after_detective st)
  else if node = "writer" then some "king"
  else if node = "wisdom" then some "king"
  else none

/-- Execute one named node on the pair (memory box, state). -/
def lang_exec (node : String) (mb : Option (List String))
    (st : BookRobotState) : Option (List String) × BookRobotState :=
  if node = "librarian" then librarian_node mb st
  else if node = "detective" then (mb, detective_node st)
  else if node = "writer" then (mb, writer_node st)
  else if node = "wisdom" then (mb, wisdom_node st)
  else if node = "king" then (mb, king_node st)
  else (mb, st)

/-- Fueled run of the compiled graph from a node, collecting the trace of
executed node names.  LangGraph's engine bounds recursion (default limit 25);
the graph itself is acyclic. -/
def lang_run : Nat → String → Option (List String) → BookRobotState →
    Option (List String) × BookRobotState × List String
  | 0, _, mb, st => (mb, st, [])
  | n + 1, node, mb, st =>
    match lang_next_node node st with
    | none => (mb, st, [])
    | some nx =>
      let p := lang_exec nx mb st
      let r := lang_run n nx p.1 p.2
      (r.1, r.2.1, nx :: r.2.2)

/-- `BookRobotTeam.ask_question` (lines 341-370): build a fresh initial state
with empty `book_content` and invoke the workflow. -/
def ask_question (mb : Option (List String)) (q : String) :
    Option (List String) × BookRobotState × List String :=
  lang_run 25 "START" mb (initState q "")

/-- The memory box after an `ask_question` call. -/
def askMb (mb : Option (List String)) (q : String) : Option (List String) :=
  (ask_question mb q).1

/-- The final state of an `ask_question` call. -/
def askFinal (mb : Option (List String)) (q : String) : BookRobotState :=
  (ask_question mb q).2.1

/-- The trace of node names executed by an `ask_question` call. -/
def askTrace (mb : Option (List String)) (q : String) : List String :=
  (ask_question mb q).2.2

/-- `BookRobotTeam.process_book` (lines 317-339): run only the librarian on a
state carrying the book, return the updated box and the report string. -/
def process_book (mb : Option (List String)) (book_content : String) :
    Option (List String) × String :=
  let r := librarian_node mb (initState "" book_content)
  (r.1,
   "🏰 Robot Team has read your book! Memorized " ++
     toString r.2.book_chunks.length ++ " sections.")

/-- The state produced by the branch node selected by the conditional edge. -/
def branchStep (st : BookRobotState) : BookRobotState :=
  if route_after_detective st = "wisdom" then wisdom_node st else writer_node st

/-- The state reaching the king node in an `ask_question` run. -/
def preKing (mb : Option (List String)) (q : String) : BookRobotState :=
  branchStep (detective_node (librarian_node mb (initState q "")).2)

end Langgraph

/-! ## The message-flow implementation (`src/book_robot_with_graph_flow.py`) -/

namespace GraphFlow

/-- `RobotMessage` (`book_robot_with_graph_flow.py` lines 13-20).  The `data`
dictionary carries only string values in the source; it is modelled as an
insertion-ordered association list. -/
structure RobotMessage where
  from_robot : String
  to_robot : String
  content : String
  message_type : String
  data : List (String × String)
deriving DecidableEq

/-- `RobotKingdomState` (lines 23-43).  `robot_responses` is a Python dict,
modelled as an insertion-ordered association list. -/
structure RobotKingdomState where
  messages : List RobotMessage
  book_content : String
  book_chunks : List String
  current_question : String
  robot_responses : List (String × String)
  final_answer : String
  conversation_history : List String
  next_robot : String
deriving DecidableEq

/-- The state built by `RobotKingdomState.__init__`. -/
def emptyState : RobotKingdomState :=
  { messages := [], book_content := "", book_chunks := [],
    current_question := "", robot_responses := [], final_answer := "",
    conversation_history := [], next_robot := "librarian" }

/-- Python dict assignment on an insertion-ordered association list:
update in place if the key exists, else append. -/
def updateAssoc : List (String × String) → String → String →
    List (String × String)
  | [], k, v => [(k, v)]
  | (k', v') :: rest, k, v =>
    if k' = k then (k, v) :: rest else (k', v') :: updateAssoc rest k v

/-- `RobotKingdomState.set_robot_response` (lines 42-43). -/
def setRobotResponse (st : RobotKingdomState) (name resp : String) :
    RobotKingdomState :=
  { st with robot_responses := updateAssoc st.robot_responses name resp }

/-- Python `message.data.get(key, "")`. -/
def dataGet (d : List (String × String)) (k : String) : String :=
  match d.find? (fun p => p.1 == k) with
  | some p => p.2
  | none => ""

/-- `RobotKingdomState.get_messages_for_robot` (lines 39-40). -/
def messagesFor (st : RobotKingdomState) (robot_name : String) :
    List RobotMessage :=
  st.messages.filter (fun m => m.to_robot == robot_name)

/-- `LibrarianRobot.work` (lines 57-95).  `mb` is the librarian's persistent
`memory_box`. -/
def librarianWork (mb : Option (List String)) (st : RobotKingdomState) :
    Option (List String) × RobotKingdomState :=
  let built :=
    if st.book_content ≠ "" ∧ mb = none then
      let chunks := splitText st.book_content
      (some chunks, { st with book_chunks := chunks })
    else (mb, st)
  let mb1 := built.1
  let st1 := built.2
  if st1.current_question ≠ "" ∧ mb1.isSome then
    let relevant_chunks := simSearch (mb1.getD []) st1.current_question 3
    let relevant_text := String.intercalate "\n" relevant_chunks
    let response :=
      "I found " ++ toString relevant_chunks.length ++
        " relevant sections about your question. Here\x27s what I discovered:\n\n"
        ++ relevant_text
    let st2 := setRobotResponse st1 "librarian" response
    let msg : RobotMessage :=
      { from_robot := "librarian", to_robot := "detective",
        content := "I found relevant book information. Please analyze it.",
        message_type := "task",
        data := [("relevant_text", relevant_text)] }
    (mb1, { st2 with messages := st2.messages ++ [msg], next_robot := "detective" })
  else
    (mb1, st1)

/-- The `if/elif` classification chain of `DetectiveRobot.work`
(lines 118-135), returning `(analysis, next_robot_choice)`.  Note there is no
final `else`: with no keyword match the analysis stays empty and the choice
stays `"writer"`. -/
def detectiveAnalysis (question_lower : String) : String × String :=
  if anyWordIn question_lower ["who", "character", "person"] then
    ("This is a CHARACTER question. I need to identify people/characters.",
     "writer")
  else if anyWordIn question_lower ["what", "describe", "explain"] then
    ("This is a DESCRIPTION question. I need to explain something.", "writer")
  else if anyWordIn question_lower ["why", "because", "reason"] then
    ("This is a REASONING question. I should get the wisdom robot involved.",
     "wisdom")
  else if anyWordIn question_lower ["summarize", "summary", "overview"] then
    ("This is a SUMMARY question. Perfect job for the writer robot.", "writer")
  else
    ("", "writer")

/-- `DetectiveRobot.work` (lines 104-151).  The message content interpolates
`question_lower.split()[0]`, which raises an uncaught `IndexError` when the
question contains no non-whitespace token; this is modelled by `Except`
(the partial mutation the Python object would retain before the exception is
unobservable through `ask_question` and is not modelled). -/
def detectiveWork (st : RobotKingdomState) : Except String RobotKingdomState :=
  match (messagesFor st "detective").getLast? with
  | none => .ok st
  | some latest =>
    let relevant_text := dataGet latest.data "relevant_text"
    let question_lower := pyLower st.current_question
    let an := detectiveAnalysis question_lower
    let response :=
      "🕵️ DETECTIVE ANALYSIS:\n" ++ an.1 ++
        "\n\nRelevant information found: " ++ toString relevant_text.length ++
        " characters of text."
    let st1 := setRobotResponse st "detective" response
    match pySplitWs question_lower with
    | [] => .error "IndexError: list index out of range"
    | w :: _ =>
      let msg : RobotMessage :=
        { from_robot := "detective", to_robot := an.2,
          content := "Please handle this " ++ pyUpper w ++ " question.",
          message_type := "task",
          data := [("analysis", an.1), ("relevant_text", relevant_text)] }
      .ok { st1 with messages := st1.messages ++ [msg], next_robot := an.2 }

/-- `WriterRobot._write_character_response` (lines 196-204).  Unlike the
LangGraph variant there is no punctuation strip. -/
def flowWriteCharacter (_question text : String) : String :=
  let words := pySplitWs text
  let potential_names :=
    words.filter (fun w => pyIstitle w && w.length > 2 && pyIsalpha w)
  match potential_names with
  | main_character :: _ =>
      "📖 Based on the book, the main character appears to be **" ++
        main_character ++
        "**. The text mentions them in the context of the story events."
  | [] =>
      "📖 The text discusses various characters, though the specific main character isn\x27t immediately clear from this section."

/-- `WriterRobot._write_description_response` (lines 206-207). -/
def flowWriteDescription (_question text : String) : String :=
  "📖 Based on the book content:\n\n" ++ text.take 300 ++
    "...\n\nThis provides context for your question about the story elements."

/-- `WriterRobot._write_summary_response` (lines 209-212): keeps empty pieces
of `text.split('.')`. -/
def flowWriteSummary (text : String) : String :=
  let sentences := (pySplitDot text).take 3
  let summary := String.intercalate ". " sentences ++ "."
  "📖 **Summary**: " ++ summary

/-- `WriterRobot._write_general_response` (lines 214-215). -/
def flowWriteGeneral (_question text : String) : String :=
  "📖 **Answer**: Based on the book content, here\x27s what I found relevant to your question:\n\n"
    ++ text.take 200 ++ "..."

/-- `WriterRobot.work` (lines 160-194). -/
def writerWork (st : RobotKingdomState) : RobotKingdomState :=
  match (messagesFor st "writer").getLast? with
  | none => st
  | some latest =>
    let relevant_text := dataGet latest.data "relevant_text"
    let analysis := dataGet latest.data "analysis"
    let response :=
      if containsSub analysis "CHARACTER" then
        flowWriteCharacter st.current_question relevant_text
      else if containsSub analysis "DESCRIPTION" then
        flowWriteDescription st.current_question relevant_text
      else if containsSub analysis "SUMMARY" then
        flowWriteSummary relevant_text
      else
        flowWriteGeneral st.current_question relevant_text
    let st1 := setRobotResponse st "writer" response
    let msg : RobotMessage :=
      { from_robot := "writer", to_robot := "king",
        content := "I\x27ve written a response. Please review and finalize.",
        message_type := "result",
        data := [("written_response", response)] }
    { st1 with messages := st1.messages ++ [msg], next_robot := "king" }

/-- `WisdomRobot.work` (lines 224-261). -/
def wisdomWork (st : RobotKingdomState) : RobotKingdomState :=
  match (messagesFor st "wisdom").getLast? with
  | none => st
  | some latest =>
    let relevant_text := dataGet latest.data "relevant_text"
    let wisdom_response :=
      "🧠 **Deep Analysis**: \n\nYour question touches on important themes in the text. Looking at the broader context:\n\n"
        ++ relevant_text.take 250 ++
        "...\n\n**Key Insights:**\n- The narrative structure suggests underlying meanings\n- Character motivations may be more complex than they first appear  \n- The author\x27s choices in language reveal deeper themes\n\n**Thoughtful Response**: The answer to your question likely involves understanding both the literal events and their symbolic meaning within the story\x27s context."
    let st1 := setRobotResponse st "wisdom" wisdom_response
    let msg : RobotMessage :=
      { from_robot := "wisdom", to_robot := "king",
        content := "I\x27ve provided deep analysis. Ready for final decision.",
        message_type := "result",
        data := [("wisdom_response", wisdom_response)] }
    { st1 with messages := st1.messages ++ [msg], next_robot := "king" }

/-- `KingRobot.work` (lines 270-293): iterates the `robot_responses` dict in
insertion order. -/
def kingWork (st : RobotKingdomState) : RobotKingdomState :=
  let all_responses :=
    st.robot_responses.map
      (fun p => "**" ++ pyTitle p.1 ++ " Robot Report:**\n" ++ p.2 ++ "\n")
  let final_answer :=
    "👑 **ROYAL ROBOT TEAM RESPONSE**\n\n**Question**: " ++
      st.current_question ++ "\n\n**Team Analysis:**\n" ++
      String.intercalate "\n" all_responses ++
      "\n\n**Final Royal Decree**: Based on my team\x27s analysis, here\x27s the comprehensive answer to your question."
  { st with final_answer := final_answer, next_robot := "complete" }

/-- The robot registry of `RobotKingdom.__init__` (lines 300-306). -/
def robotNames : List String :=
  ["librarian", "detective", "writer", "wisdom", "king"]

/-- Dispatch one robot's `work` call (only ever invoked on registry names). -/
def runRobot (name : String) (mb : Option (List String))
    (st : RobotKingdomState) :
    Except String (Option (List String) × RobotKingdomState) :=
  if name = "librarian" then .ok (librarianWork mb st)
  else if name = "detective" then
    match detectiveWork st with
    | .error e => .error e
    | .ok s => .ok (mb, s)
  else if name = "writer" then .ok (mb, writerWork st)
  else if name = "wisdom" then .ok (mb, wisdomWork st)
  else if name = "king" then .ok (mb, kingWork st)
  else .ok (mb, st)

/-- The `while` loop of `RobotKingdom.ask_question` (lines 330-343): run the
robot named by `next_robot` until `"complete"`, an unknown robot, or the
step bound; the accumulated trace records the executed robot names. -/
def askLoop : Nat → Option (List String) → RobotKingdomState → List String →
    Except String (Option (List String) × RobotKingdomState × List String)
  | 0, mb, st, tr => .ok (mb, st, tr)
  | n + 1, mb, st, tr =>
    if st.next_robot = "complete" then .ok (mb, st, tr)
    else if robotNames.contains st.next_robot then
      match runRobot st.next_robot mb st with
      | .error e => .error e
      | .ok p => askLoop n p.1 p.2 (tr ++ [st.next_robot])
    else .ok (mb, st, tr)

/-- `RobotKingdom.ask_question` (lines 319-345): reset the per-run fields
(note: `final_answer` is NOT reset) and run the loop with `max_steps = 10`. -/
def ask_question (mb : Option (List String)) (st : RobotKingdomState)
    (q : String) :
    Except String (Option (List String) × RobotKingdomState × List String) :=
  askLoop 10 mb
    { st with current_question := q, robot_responses := [], messages := [],
              next_robot := "librarian" } []

/-- `RobotKingdom.read_book` (lines 309-317). -/
def read_book (mb : Option (List String)) (st : RobotKingdomState)
    (book_content : String) : Option (List String) × RobotKingdomState :=
  librarianWork mb
    { st with book_content := book_content, next_robot := "librarian" }

/-- Projection: the trace of an `ask_question` result (empty on the
exceptional outcome). -/
def flowTraceOf :
    Except String (Option (List String) × RobotKingdomState × List String) →
    List String
  | .ok r => r.2.2
  | .error _ => []

/-- Projection: the kingdom state of an `ask_question` result. -/
def flowStateOf :
    Except String (Option (List String) × RobotKingdomState × List String) →
    RobotKingdomState
  | .ok r => r.2.1
  | .error _ => emptyState

/-- Projection: the memory box of an `ask_question` result. -/
def flowMbOf :
    Except String (Option (List String) × RobotKingdomState × List String) →
    Option (List String)
  | .ok r => r.1
  | .error _ => none

/-- Projection: whether the result is non-exceptional. -/
def flowIsOk :
    Except String (Option (List String) × RobotKingdomState × List String) →
    Bool
  | .ok _ => true
  | .error _ => false

/-- The `final_answer` returned by `ask_question` (line 345). -/
def flowAnswerOf
    (e : Except String (Option (List String) × RobotKingdomState × List String)) :
    String :=
  (flowStateOf e).final_answer

/-- The `next_robot` field after an `ask_question` call. -/
def flowNextOf
    (e : Except String (Option (List String) × RobotKingdomState × List String)) :
    String :=
  (flowStateOf e).next_robot

end GraphFlow

/-! ## Derived definitions used by the claim statements -/

namespace GraphFlow

/-- The canonical pipeline of one successful flow run: the four robot `work`
functions composed sequentially from a fresh state carrying only the
question.  `flow_run_shape` below proves that, given a built index and a
non-blank question, `ask_question` from any kingdom state computes exactly
this state (up to the frame fields it does not touch). -/
def flowCanonFinal (idx : List String) (q : String) : RobotKingdomState :=
  let st0 := { emptyState with current_question := q }
  let s1 := (librarianWork (some idx) st0).2
  match detectiveWork s1 with
  | .error _ => s1
  | .ok s2 =>
    let s3 := if s2.next_robot = "wisdom" then wisdomWork s2 else writerWork s2
    kingWork s3

/-- A two-`ask` scenario exercising the stale `final_answer`: read a book,
ask a normal question to completion, then ask the empty question (whose run
never leaves the librarian). -/
def staleScene :
    Except String (Option (List String) × RobotKingdomState × List String) :=
  let r1 := read_book none emptyState "Bilbo lived here."
  let r2 := ask_question r1.1 r1.2 "who is here"
  ask_question (flowMbOf r2) (flowStateOf r2) ""

end GraphFlow

/-- Number of branch (writer or wisdom) steps in a trace. -/
def branchCount (tr : List String) : Nat :=
  (tr.filter (fun n => n = "writer" || n = "wisdom")).length

/-- The question types of spec section 3. -/
inductive QT
  | CHARACTER
  | DESCRIPTION
  | LOCATION
  | REASONING
  | PROCESS
  | SUMMARY
  | GENERAL
deriving DecidableEq

/-- The two branches of spec section 4.1. -/
inductive Route
  | DRAFT
  | ANALYZE
deriving DecidableEq

/-- Spec-side definition, following the words of section 4.1: the seven
order-sensitive keyword sets (the seventh being the default), as the spec
states them — set 2 includes "about", set 4 includes "analyze", "meaning",
"significance" and "interpret". -/
def specKeywordTable : List (List String × QT) :=
  [ (["who", "character", "person"], QT.CHARACTER),
    (["what", "describe", "explain", "about"], QT.DESCRIPTION),
    (["where", "place", "location", "setting"], QT.LOCATION),
    (["why", "because", "reason", "purpose", "analyze", "meaning",
      "significance", "interpret"], QT.REASONING),
    (["how", "method", "way", "process"], QT.PROCESS),
    (["summarize", "summary", "overview"], QT.SUMMARY) ]

/-- Spec-side first-match scan over `specKeywordTable`, defaulting to
GENERAL. -/
def specScan (question_lower : String) : QT :=
  match specKeywordTable.find? (fun p => anyWordIn question_lower p.1) with
  | some p => p.2
  | none => QT.GENERAL

/-- Spec-side routing column of the section 4.1 table: REASONING routes to
ANALYZE, everything else to DRAFT. -/
def specRouteOf : QT → Route
  | QT.REASONING => Route.ANALYZE
  | _ => Route.DRAFT

/-- Spec-side classifier of section 4.1: `(questionType, branch)`. -/
def specClassify (q : String) : QT × Route :=
  let t := specScan (pyLower q)
  (t, specRouteOf t)

/-- The keyword table the LangGraph detective actually scans (set 2 without
"about", set 4 being only why/reason/because/purpose). -/
def codeKeywordTable : List (List String × QT) :=
  [ (["who", "character", "person"], QT.CHARACTER),
    (["what", "describe", "explain"], QT.DESCRIPTION),
    (["where", "place", "location", "setting"], QT.LOCATION),
    (["why", "reason", "because", "purpose"], QT.REASONING),
    (["how", "method", "way", "process"], QT.PROCESS),
    (["summarize", "summary", "overview"], QT.SUMMARY) ]

/-- First-match scan over `codeKeywordTable`, defaulting to GENERAL. -/
def codeScan (question_lower : String) : QT :=
  match codeKeywordTable.find? (fun p => anyWordIn question_lower p.1) with
  | some p => p.2
  | none => QT.GENERAL

/-- The routing rule the LangGraph code actually applies, independently of
the assigned question type. -/
def codeRouteRule (question_lower : String) : Route :=
  if anyWordIn question_lower
      ["why", "analyze", "meaning", "significance", "interpret"] then
    Route.ANALYZE
  else
    Route.DRAFT

/-- Map the detective's `question_type` strings to spec question types. -/
def qtOfString : String → QT
  | "CHARACTER_IDENTIFICATION" => QT.CHARACTER
  | "DESCRIPTION_REQUEST" => QT.DESCRIPTION
  | "LOCATION_INQUIRY" => QT.LOCATION
  | "REASONING_QUESTION" => QT.REASONING
  | "PROCESS_QUESTION" => QT.PROCESS
  | "SUMMARY_REQUEST" => QT.SUMMARY
  | _ => QT.GENERAL

/-- Map a branch node name to the spec branch. -/
def routeOfNode (node : String) : Route :=
  if node = "wisdom" then Route.ANALYZE else Route.DRAFT

/-! ## Run-shape lemmas for the LangGraph implementation -/

namespace Langgraph

/-- The conditional edge always selects one of the two branch nodes. -/
theorem route_cases (st : BookRobotState) :
    route_after_detective st = "wisdom" ∨ route_after_detective st = "writer" := by
  unfold route_after_detective
  split
  · exact Or.inl rfl
  · exact Or.inr rfl

/-- Unfold the run across the two unconditional leading edges. -/
theorem lang_run_start25 (mb : Option (List String)) (st : BookRobotState) :
    lang_run 25 "START" mb st =
      (let r := lang_run 23 "detective" (librarian_node mb st).1
        (detective_node (librarian_node mb st).2)
       (r.1, r.2.1, "librarian" :: "detective" :: r.2.2)) := rfl

/-- Unfold the run at the conditional edge. -/
theorem lang_run_det23 (mb : Option (List String)) (st : BookRobotState) :
    lang_run 23 "detective" mb st =
      (let b := route_after_detective st
       let p := lang_exec b mb st
       let r := lang_run 22 b p.1 p.2
       (r.1, r.2.1, b :: r.2.2)) := rfl

/-- Unfold the tail of the run after the wisdom branch. -/
theorem lang_run_wis22 (mb : Option (List String)) (st : BookRobotState) :
    lang_run 22 "wisdom" mb st = (mb, king_node st, ["king"]) := rfl

/-- Unfold the tail of the run after the writer branch. -/
theorem lang_run_wri22 (mb : Option (List String)) (st : BookRobotState) :
    lang_run 22 "writer" mb st = (mb, king_node st, ["king"]) := rfl

/-- Every `ask_question` run walks librarian → detective → selected branch →
king and stops, with the trace recording exactly those four nodes. -/
theorem ask_shape (mb : Option (List String)) (q : String) :
    ask_question mb q =
      ((librarian_node mb (initState q "")).1, king_node (preKing mb q),
       ["librarian", "detective",
        route_after_detective (detective_node (librarian_node mb (initState q "")).2),
        "king"]) := by
  rcases route_cases (detective_node (librarian_node mb (initState q "")).2) with hb | hb <;>
    rw [show ask_question mb q = lang_run 25 "START" mb (initState q "") from rfl,
        lang_run_start25, lang_run_det23, hb] <;>
    simp [preKing, branchStep, hb, lang_exec, lang_run_wis22, lang_run_wri22]

/-- An `ask_question` call never touches the memory box: the librarian's
build guard is off because `ask_question` passes an empty `book_content`. -/
theorem ask_keeps_mb (mb : Option (List String)) (q : String) :
    askMb mb q = mb := by
  have h : (librarian_node mb (initState q "")).1 = mb := by
    simp [librarian_node, initState]
  simp [askMb, ask_shape, h]

/-- The final state of an `ask_question` run is the king node's output on the
state the selected branch produced. -/
theorem askFinal_eq (mb : Option (List String)) (q : String) :
    askFinal mb q = king_node (preKing mb q) := by
  simp [askFinal, ask_shape]

/-- The trace of an `ask_question` run. -/
theorem askTrace_eq (mb : Option (List String)) (q : String) :
    askTrace mb q =
      ["librarian", "detective",
       route_after_detective (detective_node (librarian_node mb (initState q "")).2),
       "king"] := by
  simp [askTrace, ask_shape]

/-- The librarian node does not change the question. -/
theorem librarian_question (mb : Option (List String)) (st : BookRobotState) :
    (librarian_node mb st).2.question = st.question := by
  unfold librarian_node
  split <;> rfl

/-- The detective node does not change the question. -/
theorem detective_question (st : BookRobotState) :
    (detective_node st).question = st.question := rfl

/-- The route consulted after the detective only depends on the question,
so on the run from `initState q ""` it equals the route of the bare
question. -/
theorem route_on_run (mb : Option (List String)) (q : String) :
    route_after_detective (detective_node (librarian_node mb (initState q "")).2) =
      route_after_detective (initState q "") := by
  unfold route_after_detective
  rw [detective_question, librarian_question]

end Langgraph

/-! ## General string facts -/

/-- A string of positive length is non-empty. -/
theorem ne_empty_of_length_pos (s : String) (h : 0 < s.length) : ¬ s = "" := by
  intro he
  rw [he] at h
  simp at h

/-! ## Run-shape lemmas for the message-flow implementation -/

namespace GraphFlow

/-- The detective's choice is always one of the two branch robots. -/
theorem det_branch (question_lower : String) :
    (detectiveAnalysis question_lower).2 = "wisdom" ∨
      (detectiveAnalysis question_lower).2 = "writer" := by
  unfold detectiveAnalysis
  split
  · exact Or.inr rfl
  · split
    · exact Or.inr rfl
    · split
      · exact Or.inl rfl
      · split
        · exact Or.inr rfl
        · exact Or.inr rfl

/-- One unfolding of the `while` loop. -/
theorem askLoop_succ (n : Nat) (mb : Option (List String))
    (st : RobotKingdomState) (tr : List String) :
    askLoop (n + 1) mb st tr =
      (if st.next_robot = "complete" then .ok (mb, st, tr)
       else if robotNames.contains st.next_robot then
         match runRobot st.next_robot mb st with
         | .error e => .error e
         | .ok p => askLoop n p.1 p.2 (tr ++ [st.next_robot])
       else .ok (mb, st, tr)) := rfl

/-- Unfolding of the loop at fuel 10. -/
theorem askLoop_10 (mb : Option (List String)) (st : RobotKingdomState)
    (tr : List String) :
    askLoop 10 mb st tr =
      (if st.next_robot = "complete" then .ok (mb, st, tr)
       else if robotNames.contains st.next_robot then
         match runRobot st.next_robot mb st with
         | .error e => .error e
         | .ok p => askLoop 9 p.1 p.2 (tr ++ [st.next_robot])
       else .ok (mb, st, tr)) := rfl

/-- Unfolding of the loop at fuel 9. -/
theorem askLoop_9 (mb : Option (List String)) (st : RobotKingdomState)
    (tr : List String) :
    askLoop 9 mb st tr =
      (if st.next_robot = "complete" then .ok (mb, st, tr)
       else if robotNames.contains st.next_robot then
         match runRobot st.next_robot mb st with
         | .error e => .error e
         | .ok p => askLoop 8 p.1 p.2 (tr ++ [st.next_robot])
       else .ok (mb, st, tr)) := rfl

/-- Unfolding of the loop at fuel 8. -/
theorem askLoop_8 (mb : Option (List String)) (st : RobotKingdomState)
    (tr : List String) :
    askLoop 8 mb st tr =
      (if st.next_robot = "complete" then .ok (mb, st, tr)
       else if robotNames.contains st.next_robot then
         match runRobot st.next_robot mb st with
         | .error e => .error e
         | .ok p => askLoop 7 p.1 p.2 (tr ++ [st.next_robot])
       else .ok (mb, st, tr)) := rfl

/-- Unfolding of the loop at fuel 7. -/
theorem askLoop_7 (mb : Option (List String)) (st : RobotKingdomState)
    (tr : List String) :
    askLoop 7 mb st tr =
      (if st.next_robot = "complete" then .ok (mb, st, tr)
       else if robotNames.contains st.next_robot then
         match runRobot st.next_robot mb st with
         | .error e => .error e
         | .ok p => askLoop 6 p.1 p.2 (tr ++ [st.next_robot])
       else .ok (mb, st, tr)) := rfl

/-- Unfolding of the loop at fuel 6. -/
theorem askLoop_6 (mb : Option (List String)) (st : RobotKingdomState)
    (tr : List String) :
    askLoop 6 mb st tr =
      (if st.next_robot = "complete" then .ok (mb, st, tr)
       else if robotNames.contains st.next_robot then
         match runRobot st.next_robot mb st with
         | .error e => .error e
         | .ok p => askLoop 5 p.1 p.2 (tr ++ [st.next_robot])
       else .ok (mb, st, tr)) := rfl

/-- The loop appends at most `n` names to the accumulated trace. -/
theorem askLoop_length (n : Nat) :
    ∀ (mb : Option (List String)) (st : RobotKingdomState) (tr : List String)
      (r : Option (List String) × RobotKingdomState × List String),
      askLoop n mb st tr = .ok r → r.2.2.length ≤ tr.length + n := by
  induction n with
  | zero =>
    intro mb st tr r h
    rw [show askLoop 0 mb st tr = .ok (mb, st, tr) from rfl] at h
    cases h
    simp
  | succ n ih =>
    intro mb st tr r h
    rw [askLoop_succ] at h
    split at h
    · cases h
      simp
    · split at h
      · cases hr : runRobot st.next_robot mb st with
        | error e => rw [hr] at h; cases h
        | ok p =>
          rw [hr] at h
          have := ih p.1 p.2 (tr ++ [st.next_robot]) r h
          simp [List.length_append] at this
          omega
      · cases h
        simp

/-- With no memory box and no book content, the librarian never advances
`next_robot`, so the loop runs it idly until the fuel is exhausted, leaving
the state untouched. -/
theorem askLoop_idle (n : Nat) (st : RobotKingdomState)
    (hbc : st.book_content = "") (hnr : st.next_robot = "librarian") :
    ∀ tr : List String,
      askLoop n none st tr =
        .ok (none, st, tr ++ List.replicate n "librarian") := by
  induction n with
  | zero =>
    intro tr
    simp [askLoop]
  | succ n ih =>
    intro tr
    rw [askLoop_succ, hnr]
    have hlib : runRobot "librarian" none st = .ok (none, st) := by
      simp [runRobot, librarianWork, hbc]
    simp only [hlib, robotNames]
    simp [ih, List.replicate_succ, List.append_assoc]

/-- Master run-shape lemma: from any kingdom state, with a built index and a
non-blank question, `ask_question` succeeds, leaves the index unchanged,
traces librarian → detective → chosen branch → king, and produces exactly
the canonical pipeline state, with the fields the run never writes
(`book_content`, `book_chunks`, `conversation_history`) carried over from
the caller's state. -/
theorem flow_run_shape (idx : List String) (st : RobotKingdomState)
    (q : String) (hq : ¬ q = "") (hsp : ¬ pySplitWs (pyLower q) = []) :
    ask_question (some idx) st q =
      .ok (some idx,
           { flowCanonFinal idx q with
               book_content := st.book_content,
               book_chunks := st.book_chunks,
               conversation_history := st.conversation_history },
           ["librarian", "detective", (detectiveAnalysis (pyLower q)).2,
            "king"]) := by
  obtain ⟨w, ws, hw⟩ := List.exists_cons_of_ne_nil hsp
  rcases det_branch (pyLower q) with hb | hb <;>
    simp [ask_question, askLoop_10, askLoop_9, askLoop_8, askLoop_7, askLoop_6,
      runRobot, robotNames, librarianWork, detectiveWork, writerWork,
      wisdomWork, kingWork, messagesFor, dataGet, setRobotResponse,
      updateAssoc, hq, hw, hb, flowCanonFinal, emptyState]

/-- The canonical pipeline reaches the terminal marker. -/
theorem canon_next (idx : List String) (q : String) (hq : ¬ q = "")
    (hsp : ¬ pySplitWs (pyLower q) = []) :
    (flowCanonFinal idx q).next_robot = "complete" := by
  obtain ⟨w, ws, hw⟩ := List.exists_cons_of_ne_nil hsp
  rcases det_branch (pyLower q) with hb | hb <;>
    simp [flowCanonFinal, librarianWork, detectiveWork, writerWork,
      wisdomWork, kingWork, messagesFor, dataGet, setRobotResponse,
      updateAssoc, hq, hw, hb, emptyState]

/-- The king robot's final answer is never empty: it starts with a fixed
literal header. -/
theorem kingWork_answer_ne (st : RobotKingdomState) :
    ¬ (kingWork st).final_answer = "" := by
  apply ne_empty_of_length_pos
  simp only [kingWork, String.length_append]
  have h : 0 < ("👑 **ROYAL ROBOT TEAM RESPONSE**\n\n**Question**: ").length := by
    decide
  omega

/-- With a built index and a non-blank question, the detective succeeds on
the state the librarian hands over. -/
theorem det_after_lib (idx : List String) (q : String) (hq : ¬ q = "")
    (w : String) (ws : List String) (hw : pySplitWs (pyLower q) = w :: ws) :
    ∃ s2, detectiveWork
        ((librarianWork (some idx) { emptyState with current_question := q }).2) =
      .ok s2 := by
  rcases hdet : detectiveWork
      ((librarianWork (some idx) { emptyState with current_question := q }).2)
    with e | s2
  · exfalso
    simp [librarianWork, detectiveWork, messagesFor, dataGet, setRobotResponse,
      updateAssoc, hq, hw, emptyState] at hdet
  · exact ⟨s2, rfl⟩

/-- The canonical pipeline's final answer is non-empty. -/
theorem canon_answer_ne (idx : List String) (q : String) (hq : ¬ q = "")
    (hsp : ¬ pySplitWs (pyLower q) = []) :
    ¬ (flowCanonFinal idx q).final_answer = "" := by
  obtain ⟨w, ws, hw⟩ := List.exists_cons_of_ne_nil hsp
  obtain ⟨s2, hdet⟩ := det_after_lib idx q hq w ws hw
  simp only [flowCanonFinal, hdet]
  split <;> exact kingWork_answer_ne _

/-- The canonical pipeline records responses for exactly librarian,
detective and the chosen branch robot, in that insertion order. -/
theorem canon_responses (idx : List String) (q : String) (hq : ¬ q = "")
    (hsp : ¬ pySplitWs (pyLower q) = []) :
    (flowCanonFinal idx q).robot_responses.map Prod.fst =
      ["librarian", "detective", (detectiveAnalysis (pyLower q)).2] := by
  obtain ⟨w, ws, hw⟩ := List.exists_cons_of_ne_nil hsp
  rcases det_branch (pyLower q) with hb | hb <;>
    simp [flowCanonFinal, librarianWork, detectiveWork, writerWork,
      wisdomWork, kingWork, messagesFor, dataGet, setRobotResponse,
      updateAssoc, hq, hw, hb, emptyState]

end GraphFlow

/-! ## Field lemmas for the LangGraph implementation -/

namespace Langgraph

/-- The librarian node increments the step counter by one. -/
theorem librarian_sc (mb : Option (List String)) (st : BookRobotState) :
    (librarian_node mb st).2.step_count = st.step_count + 1 := by
  unfold librarian_node
  split <;> rfl

/-- The detective node increments the step counter by one. -/
theorem detective_sc (st : BookRobotState) :
    (detective_node st).step_count = st.step_count + 1 := rfl

/-- The branch node increments the step counter by one. -/
theorem branchStep_sc (st : BookRobotState) :
    (branchStep st).step_count = st.step_count + 1 := by
  unfold branchStep
  split <;> simp only [wisdom_node, writer_node]

/-- The king node increments the step counter by one. -/
theorem king_sc (st : BookRobotState) :
    (king_node st).step_count = st.step_count + 1 := rfl

/-- The librarian node does not write the final answer. -/
theorem librarian_final (mb : Option (List String)) (st : BookRobotState) :
    (librarian_node mb st).2.final_answer = st.final_answer := by
  unfold librarian_node
  split <;> rfl

/-- The detective node does not write the final answer. -/
theorem detective_final (st : BookRobotState) :
    (detective_node st).final_answer = st.final_answer := rfl

/-- Neither branch node writes the final answer. -/
theorem branchStep_final (st : BookRobotState) :
    (branchStep st).final_answer = st.final_answer := by
  unfold branchStep
  split <;> simp only [wisdom_node, writer_node]

/-- The detective node does not touch the retrieved passages. -/
theorem detective_rel (st : BookRobotState) :
    (detective_node st).relevant_info = st.relevant_info := rfl

/-- Neither branch node touches the retrieved passages. -/
theorem branchStep_rel (st : BookRobotState) :
    (branchStep st).relevant_info = st.relevant_info := by
  unfold branchStep
  split <;> simp only [wisdom_node, writer_node]

/-- The king node does not touch the retrieved passages. -/
theorem king_rel (st : BookRobotState) :
    (king_node st).relevant_info = st.relevant_info := rfl

/-- Neither branch node changes the question. -/
theorem branchStep_question (st : BookRobotState) :
    (branchStep st).question = st.question := by
  unfold branchStep
  split <;> simp only [wisdom_node, writer_node]

/-- The question survives to the king node unchanged. -/
theorem preKing_question (mb : Option (List String)) (q : String) :
    (preKing mb q).question = q := by
  unfold preKing
  rw [branchStep_question, detective_question, librarian_question]
  rfl

/-- The librarian's report is never empty. -/
theorem librarian_resp_ne (mb : Option (List String)) (st : BookRobotState) :
    ¬ (librarian_node mb st).2.librarian_response = "" := by
  apply ne_empty_of_length_pos
  simp only [librarian_node, String.length_append]
  have h : 0 < ("📚 Found ").length := by decide
  omega

/-- The detective's report is never empty. -/
theorem detective_resp_ne (st : BookRobotState) :
    ¬ (detective_node st).detective_response = "" := by
  apply ne_empty_of_length_pos
  simp only [detective_node, String.length_append]
  have h : 0 < ("🕵️ Analysis complete: ").length := by decide
  omega

/-- Each writer template is non-empty. -/
theorem write_character_ne (text : String) :
    ¬ write_character_response text = "" := by
  simp only [write_character_response]
  cases hm : ((pySplitWs text).filter
      (fun w => pyIstitle w && w.length > 2 && pyIsalpha w)).map
      (fun w => pyStrip w ['.', ',', '!', '?']) with
  | nil => simp
  | cons c rest =>
    apply ne_empty_of_length_pos
    simp only [String.length_append]
    have h : 0 <
        ("✍️ **Character Analysis**: Based on the book, the main character appears to be **").length := by
      decide
    omega

/-- The writer's response is never empty: every template is headed by a
fixed literal. -/
theorem writer_resp_ne (st : BookRobotState) :
    ¬ (writer_node st).writer_response = "" := by
  simp only [writer_node]
  split_ifs
  · exact write_character_ne _
  · apply ne_empty_of_length_pos
    simp only [write_description_response, String.length_append]
    have h : 0 < ("✍️ **Detailed Description**: ").length := by decide
    omega
  · apply ne_empty_of_length_pos
    simp only [write_location_response, String.length_append]
    have h : 0 <
        ("✍️ **Setting Analysis**: The story takes place in the world described in the text:\n\n").length := by
      decide
    omega
  · apply ne_empty_of_length_pos
    simp only [write_summary_response, String.length_append]
    have h : 0 < ("✍️ **Summary**: ").length := by decide
    omega
  · apply ne_empty_of_length_pos
    simp only [write_general_response, String.length_append]
    have h : 0 <
        ("✍️ **Response**: Based on the book content, here\x27s what\x27s most relevant to your question:\n\n").length := by
      decide
    omega

/-- The wisdom robot's response is never empty. -/
theorem wisdom_resp_ne (st : BookRobotState) :
    ¬ (wisdom_node st).wisdom_response = "" := by
  apply ne_empty_of_length_pos
  simp only [wisdom_node, String.length_append]
  have h : 0 < ("🧠 **Deep Wisdom Analysis**\n\n**Your Question**: ").length := by
    decide
  omega

/-- The king node's final answer is never empty. -/
theorem king_answer_ne (st : BookRobotState) :
    ¬ (king_node st).final_answer = "" := by
  apply ne_empty_of_length_pos
  simp only [king_node, String.length_append]
  have h : 0 < ("👑 **ROYAL TEAM RESPONSE**\n\n**Your Question**: ").length := by
    decide
  omega

/-- The detective node does not touch the librarian's report. -/
theorem detective_libresp (st : BookRobotState) :
    (detective_node st).librarian_response = st.librarian_response := rfl

/-- Neither branch node touches the librarian's report. -/
theorem branchStep_libresp (st : BookRobotState) :
    (branchStep st).librarian_response = st.librarian_response := by
  unfold branchStep
  split <;> simp only [wisdom_node, writer_node]

/-- Neither branch node touches the detective's report. -/
theorem branchStep_detresp (st : BookRobotState) :
    (branchStep st).detective_response = st.detective_response := by
  unfold branchStep
  split <;> simp only [wisdom_node, writer_node]

/-- The writer node does not touch the wisdom response. -/
theorem writer_wisresp (st : BookRobotState) :
    (writer_node st).wisdom_response = st.wisdom_response := by
  simp only [writer_node]

/-- The wisdom node does not touch the writer response. -/
theorem wisdom_wriresp (st : BookRobotState) :
    (wisdom_node st).writer_response = st.writer_response := by
  simp only [wisdom_node]

end Langgraph

/-! ## Run-level corollaries for the LangGraph implementation -/

namespace Langgraph

/-- The king node does not touch the question type. -/
theorem king_qtype (st : BookRobotState) :
    (king_node st).question_type = st.question_type := by
  simp only [king_node]

/-- Neither branch node touches the question type. -/
theorem branchStep_qtype (st : BookRobotState) :
    (branchStep st).question_type = st.question_type := by
  unfold branchStep
  split <;> simp only [wisdom_node, writer_node]

/-- The detective's classification depends only on the question. -/
theorem detective_qt_eq (st st' : BookRobotState)
    (h : st.question = st'.question) :
    (detective_node st).question_type = (detective_node st').question_type := by
  simp only [detective_node, h]

/-- The question type of a finished run is the detective's classification
of the bare question. -/
theorem ask_question_type (mb : Option (List String)) (q : String) :
    (askFinal mb q).question_type =
      (detective_node (initState q "")).question_type := by
  rw [askFinal_eq]
  rw [king_qtype]
  unfold preKing
  rw [branchStep_qtype]
  exact detective_qt_eq _ _ (by rw [librarian_question])

/-- Every finished run has executed exactly four steps. -/
theorem ask_step_count (mb : Option (List String)) (q : String) :
    (askFinal mb q).step_count = 4 := by
  rw [askFinal_eq]
  unfold preKing
  rw [king_sc, branchStep_sc, detective_sc, librarian_sc]
  rfl

end Langgraph

/-! ## Claim theorems -/

/-- C1 counterexample: the spec's section 4.1 table disagrees with the code.
A question consisting of the word "about" is DESCRIPTION/DRAFT per the spec
table but the detective classifies it GENERAL (set 2 in the code has no
"about"); a question consisting of "because" is REASONING/ANALYZE per the
spec table, and the detective does type it REASONING, but the conditional
edge still routes it to the writer (DRAFT). -/
theorem c1_classifier_counterexample :
    specClassify "about" = (QT.DESCRIPTION, Route.DRAFT) ∧
    qtOfString (Langgraph.detective_node
        (Langgraph.initState "about" "")).question_type = QT.GENERAL ∧
    routeOfNode (Langgraph.route_after_detective
        (Langgraph.initState "about" "")) = Route.DRAFT ∧
    specClassify "because" = (QT.REASONING, Route.ANALYZE) ∧
    qtOfString (Langgraph.detective_node
        (Langgraph.initState "because" "")).question_type = QT.REASONING ∧
    routeOfNode (Langgraph.route_after_detective
        (Langgraph.initState "because" "")) = Route.DRAFT := by
  decide

/-- C1 (amended): the detective classifies by a first-match scan of six
order-sensitive keyword sets with GENERAL as default, but the table is
`codeKeywordTable` (set 2 without "about"; set 4 only why/reason/because/
purpose), and the route is decided independently of the assigned type by
`codeRouteRule` (ANALYZE exactly when the question contains one of why,
analyze, meaning, significance, interpret). -/
theorem c1_classifier_amended (q : String) :
    qtOfString (Langgraph.detective_node
        (Langgraph.initState q "")).question_type = codeScan (pyLower q) ∧
    routeOfNode (Langgraph.route_after_detective
        (Langgraph.initState q "")) = codeRouteRule (pyLower q) := by
  constructor
  · cases h1 : anyWordIn (pyLower q) ["who", "character", "person"] <;>
    cases h2 : anyWordIn (pyLower q) ["what", "describe", "explain"] <;>
    cases h3 : anyWordIn (pyLower q) ["where", "place", "location", "setting"] <;>
    cases h4 : anyWordIn (pyLower q) ["why", "reason", "because", "purpose"] <;>
    cases h5 : anyWordIn (pyLower q) ["how", "method", "way", "process"] <;>
    cases h6 : anyWordIn (pyLower q) ["summarize", "summary", "overview"] <;>
      simp [Langgraph.detective_node, Langgraph.initState, codeScan,
        codeKeywordTable, qtOfString, List.find?, h1, h2, h3, h4, h5, h6]
  · cases hr : anyWordIn (pyLower q)
        ["why", "analyze", "meaning", "significance", "interpret"] <;>
      simp [Langgraph.route_after_detective, Langgraph.initState,
        codeRouteRule, routeOfNode, hr]

/-- C2 counterexample: the message-flow implementation routes a question
containing "analyze" to the writer (DRAFT) branch, because its detective
only sends why/because/reason questions to the wisdom robot. -/
theorem c2_branch_counterexample :
    containsSub (pyLower "analyze the story") "analyze" = true ∧
    GraphFlow.flowTraceOf (GraphFlow.ask_question (some ["The dragon slept."])
        GraphFlow.emptyState "analyze the story") =
      ["librarian", "detective", "writer", "king"] := by
  constructor
  · decide
  · decide

/-- C2 (amended): in the LangGraph implementation the ANALYZE branch is
taken exactly when the question contains one of why, analyze, meaning,
significance, interpret; in the message-flow implementation the wisdom
branch is chosen exactly when the question contains one of why, because,
reason and none of the higher-priority who/character/person or
what/describe/explain keywords. -/
theorem c2_branch_amended :
    (∀ q : String,
      (Langgraph.route_after_detective (Langgraph.initState q "") = "wisdom" ↔
        anyWordIn (pyLower q)
          ["why", "analyze", "meaning", "significance", "interpret"] = true)) ∧
    (∀ q : String,
      ((GraphFlow.detectiveAnalysis (pyLower q)).2 = "wisdom" ↔
        (anyWordIn (pyLower q) ["why", "because", "reason"] = true ∧
         anyWordIn (pyLower q) ["who", "character", "person"] = false ∧
         anyWordIn (pyLower q) ["what", "describe", "explain"] = false))) := by
  constructor
  · intro q
    have h : Langgraph.route_after_detective (Langgraph.initState q "") =
        (if anyWordIn (pyLower q)
            ["why", "analyze", "meaning", "significance", "interpret"] then
          "wisdom"
        else "writer") := rfl
    rw [h]
    cases hr : anyWordIn (pyLower q)
        ["why", "analyze", "meaning", "significance", "interpret"] <;>
      simp [hr]
  · intro q
    unfold GraphFlow.detectiveAnalysis
    cases h1 : anyWordIn (pyLower q) ["who", "character", "person"] <;>
    cases h2 : anyWordIn (pyLower q) ["what", "describe", "explain"] <;>
    cases h3 : anyWordIn (pyLower q) ["why", "because", "reason"] <;>
    cases h4 : anyWordIn (pyLower q) ["summarize", "summary", "overview"] <;>
      simp [h1, h2, h3, h4]

/-- C3 counterexample: neither implementation raises an
`EmptyQuestionError`.  The LangGraph `ask_question("")` runs the whole
pipeline (four steps executed, GENERAL classification) and returns a
non-empty final answer; `ask_question("   ")` likewise; and in the
message-flow implementation `ask_question("   ")` with a built index
aborts with an uncaught `IndexError`, not an `EmptyQuestionError`. -/
theorem c3_empty_question_counterexample :
    (Langgraph.askFinal none "").question_type = "GENERAL_QUESTION" ∧
    (Langgraph.askFinal none "").step_count = 4 ∧
    ¬ (Langgraph.askFinal none "").final_answer = "" ∧
    (Langgraph.askFinal none "   ").question_type = "GENERAL_QUESTION" ∧
    ¬ (Langgraph.askFinal none "   ").final_answer = "" ∧
    GraphFlow.flowIsOk (GraphFlow.ask_question (some ["a"])
      GraphFlow.emptyState "   ") = false := by
  refine ⟨by decide, by decide, ?_, by decide, ?_, by decide⟩
  · rw [Langgraph.askFinal_eq]
    exact Langgraph.king_answer_ne _
  · rw [Langgraph.askFinal_eq]
    exact Langgraph.king_answer_ne _

/-- C3 (amended): the LangGraph implementation accepts the empty and the
all-whitespace question: the run executes librarian, detective, writer and
king (state mutated, step counter 4), classifies the question GENERAL, and
returns a non-empty final answer; no `EmptyQuestionError` exists. -/
theorem c3_empty_question_amended (mb : Option (List String)) :
    (Langgraph.askFinal mb "").question_type = "GENERAL_QUESTION" ∧
    Langgraph.askTrace mb "" = ["librarian", "detective", "writer", "king"] ∧
    (Langgraph.askFinal mb "").step_count = 4 ∧
    ¬ (Langgraph.askFinal mb "").final_answer = "" ∧
    (Langgraph.askFinal mb "   ").question_type = "GENERAL_QUESTION" ∧
    Langgraph.askTrace mb "   " = ["librarian", "detective", "writer", "king"] ∧
    (Langgraph.askFinal mb "   ").step_count = 4 ∧
    ¬ (Langgraph.askFinal mb "   ").final_answer = "" := by
  refine ⟨?_, ?_, ?_, ?_, ?_, ?_, ?_, ?_⟩
  · rw [Langgraph.ask_question_type]
    decide
  · rw [Langgraph.askTrace_eq, Langgraph.route_on_run]
    decide
  · exact Langgraph.ask_step_count mb ""
  · rw [Langgraph.askFinal_eq]
    exact Langgraph.king_answer_ne _
  · rw [Langgraph.ask_question_type]
    decide
  · rw [Langgraph.askTrace_eq, Langgraph.route_on_run]
    decide
  · exact Langgraph.ask_step_count mb "   "
  · rw [Langgraph.askFinal_eq]
    exact Langgraph.king_answer_ne _

/-- C4 counterexample: a single message-flow `ask_question` before any
index is built executes ten robot steps (the librarian ten times) — more
than the claimed bound of five — and returns normally instead of failing
as an internal invariant violation. -/
theorem c4_step_bound_counterexample :
    (GraphFlow.flowTraceOf (GraphFlow.ask_question none GraphFlow.emptyState
      "who is it")).length = 10 ∧
    GraphFlow.flowIsOk (GraphFlow.ask_question none GraphFlow.emptyState
      "who is it") = true := by
  constructor
  · decide
  · decide

/-- C4 (amended): every run terminates, but the bound differs by
implementation: a LangGraph run always executes exactly four node steps,
while a message-flow run is bounded only by the `max_steps = 10` loop
guard, and a run that hits that guard stops silently rather than failing. -/
theorem c4_step_bound :
    (∀ (mb : Option (List String)) (q : String),
      (Langgraph.askTrace mb q).length = 4) ∧
    (∀ (mb : Option (List String)) (st : GraphFlow.RobotKingdomState)
      (q : String),
      (GraphFlow.flowTraceOf (GraphFlow.ask_question mb st q)).length ≤ 10) := by
  constructor
  · intro mb q
    rw [Langgraph.askTrace_eq]
    rfl
  · intro mb st q
    unfold GraphFlow.ask_question
    cases he : GraphFlow.askLoop 10 mb
        { st with current_question := q, robot_responses := [],
                  messages := [], next_robot := "librarian" } [] with
    | error e => simp [GraphFlow.flowTraceOf]
    | ok r =>
      have hb := GraphFlow.askLoop_length 10 mb
        { st with current_question := q, robot_responses := [],
                  messages := [], next_robot := "librarian" } [] r he
      simpa [GraphFlow.flowTraceOf] using hb

/-- C5 counterexample: a message-flow run before any index is built
executes neither the writer nor the wisdom robot (the librarian spins
until the step guard), returning normally — so a run can execute zero
branch steps. -/
theorem c5_exactly_one_branch_counterexample :
    branchCount (GraphFlow.flowTraceOf (GraphFlow.ask_question none
      GraphFlow.emptyState "who is the main character")) = 0 ∧
    GraphFlow.flowIsOk (GraphFlow.ask_question none GraphFlow.emptyState
      "who is the main character") = true := by
  constructor
  · decide
  · decide

/-- C5 (amended): every LangGraph run executes exactly one of the writer
and wisdom nodes; a message-flow run does so provided an index has been
built and the question is non-blank. -/
theorem c5_exactly_one_branch :
    (∀ (mb : Option (List String)) (q : String),
      branchCount (Langgraph.askTrace mb q) = 1) ∧
    (∀ (idx : List String) (st : GraphFlow.RobotKingdomState) (q : String),
      ¬ q = "" → ¬ pySplitWs (pyLower q) = [] →
      branchCount (GraphFlow.flowTraceOf
        (GraphFlow.ask_question (some idx) st q)) = 1) := by
  constructor
  · intro mb q
    rw [Langgraph.askTrace_eq]
    rcases Langgraph.route_cases (Langgraph.detective_node
        (Langgraph.librarian_node mb (Langgraph.initState q "")).2) with hb | hb <;>
      rw [hb] <;> decide
  · intro idx st q hq hsp
    rw [GraphFlow.flow_run_shape idx st q hq hsp]
    rcases GraphFlow.det_branch (pyLower q) with hb | hb <;>
      simp [GraphFlow.flowTraceOf, branchCount, hb]

/-- C5 witness: a concrete run of each implementation with a built index
and the question "why", each executing exactly one branch step. -/
theorem c5_exactly_one_branch_witness :
    (¬ "why" = "") ∧ (¬ pySplitWs (pyLower "why") = []) ∧
    branchCount (Langgraph.askTrace none "why") = 1 ∧
    branchCount (GraphFlow.flowTraceOf (GraphFlow.ask_question (some ["a"])
      GraphFlow.emptyState "why")) = 1 :=
  ⟨by decide, by decide, c5_exactly_one_branch.1 none "why",
   c5_exactly_one_branch.2 ["a"] GraphFlow.emptyState "why" (by decide)
     (by decide)⟩

/-- C6 counterexample: the message-flow implementation does not clear
`final_answer` between runs.  After reading a book and completing one ask,
a second ask with the empty question never reaches the terminal state
(`next_robot` stays "librarian") yet `final_answer` is still the previous
run's non-empty answer — refuting the claimed if-and-only-if. -/
theorem c6_final_answer_counterexample :
    ¬ GraphFlow.flowNextOf GraphFlow.staleScene = "complete" ∧
    ¬ GraphFlow.flowAnswerOf GraphFlow.staleScene = "" := by
  constructor
  · decide
  · decide

/-- C6 (amended): within a single LangGraph run the equivalence holds —
`final_answer` is empty at every state before the king node and non-empty
after it; a message-flow run with a built index and a non-blank question
ends terminal with a non-empty answer.  Across message-flow runs the
equivalence fails (see the counterexample). -/
theorem c6_final_answer_iff :
    (∀ (mb : Option (List String)) (q : String),
      (Langgraph.librarian_node mb (Langgraph.initState q "")).2.final_answer
        = "" ∧
      (Langgraph.detective_node
        (Langgraph.librarian_node mb (Langgraph.initState q "")).2).final_answer
        = "" ∧
      (Langgraph.preKing mb q).final_answer = "" ∧
      ¬ (Langgraph.askFinal mb q).final_answer = "") ∧
    (∀ (idx : List String) (st : GraphFlow.RobotKingdomState) (q : String),
      ¬ q = "" → ¬ pySplitWs (pyLower q) = [] →
      GraphFlow.flowNextOf (GraphFlow.ask_question (some idx) st q) =
        "complete" ∧
      ¬ GraphFlow.flowAnswerOf (GraphFlow.ask_question (some idx) st q) = "") := by
  constructor
  · intro mb q
    have h1 : (Langgraph.librarian_node mb
        (Langgraph.initState q "")).2.final_answer = "" := by
      rw [Langgraph.librarian_final]
      rfl
    refine ⟨h1, ?_, ?_, ?_⟩
    · rw [Langgraph.detective_final, h1]
    · unfold Langgraph.preKing
      rw [Langgraph.branchStep_final, Langgraph.detective_final, h1]
    · rw [Langgraph.askFinal_eq]
      exact Langgraph.king_answer_ne _
  · intro idx st q hq hsp
    constructor
    · unfold GraphFlow.flowNextOf
      rw [GraphFlow.flow_run_shape idx st q hq hsp]
      simp only [GraphFlow.flowStateOf]
      exact GraphFlow.canon_next idx q hq hsp
    · unfold GraphFlow.flowAnswerOf
      rw [GraphFlow.flow_run_shape idx st q hq hsp]
      simp only [GraphFlow.flowStateOf]
      exact GraphFlow.canon_answer_ne idx q hq hsp

/-- C6 witness: concrete completed runs of both implementations with
non-empty final answers. -/
theorem c6_final_answer_iff_witness :
    (¬ "why" = "") ∧ (¬ pySplitWs (pyLower "why") = []) ∧
    GraphFlow.flowNextOf (GraphFlow.ask_question (some ["a"])
      GraphFlow.emptyState "why") = "complete" ∧
    ¬ GraphFlow.flowAnswerOf (GraphFlow.ask_question (some ["a"])
      GraphFlow.emptyState "why") = "" ∧
    ¬ (Langgraph.askFinal none "why").final_answer = "" :=
  ⟨by decide, by decide,
   (c6_final_answer_iff.2 ["a"] GraphFlow.emptyState "why" (by decide)
     (by decide)).1,
   (c6_final_answer_iff.2 ["a"] GraphFlow.emptyState "why" (by decide)
     (by decide)).2,
   (c6_final_answer_iff.1 none "why").2.2.2⟩

/-- C7 counterexample: ingesting the empty document raises no
`IndexBuildError` — `process_book` returns its normal report message and
builds no index; the message-flow `read_book` likewise; and a subsequent
ask still succeeds (empty retrieval, non-empty answer). -/
theorem c7_empty_ingest_counterexample :
    Langgraph.process_book none "" =
      (none, "🏰 Robot Team has read your book! Memorized 0 sections.") ∧
    (GraphFlow.read_book none GraphFlow.emptyState "").1 = none ∧
    (Langgraph.askFinal none "what happens").relevant_info = "" ∧
    ¬ (Langgraph.askFinal none "what happens").final_answer = "" := by
  refine ⟨by decide, by decide, by decide, ?_⟩
  rw [Langgraph.askFinal_eq]
  exact Langgraph.king_answer_ne _

/-- C7 (amended): ingesting the empty document is a silent no-op (no
exception type exists in the code): the memory box is left unchanged in
both implementations.  A subsequent ask then behaves per implementation:
the LangGraph ask still succeeds with an empty retrieved-passage text (not
an error) and a non-empty final answer, while a message-flow ask never
reaches retrieval at all — the librarian runs idly for the full ten-step
guard and the call returns with the kingdom state unchanged apart from the
per-run resets, so its `final_answer` is the stale previous one (empty on a
fresh kingdom). -/
theorem c7_empty_ingest_amended :
    (∀ mb : Option (List String),
      (Langgraph.process_book mb "").1 = mb) ∧
    (∀ (mb : Option (List String)) (st : GraphFlow.RobotKingdomState),
      (GraphFlow.read_book mb st "").1 = mb) ∧
    (∀ q : String,
      (Langgraph.askFinal none q).relevant_info = "" ∧
      ¬ (Langgraph.askFinal none q).final_answer = "") ∧
    (∀ (st : GraphFlow.RobotKingdomState) (q : String),
      st.book_content = "" →
      GraphFlow.ask_question none st q =
        .ok (none,
             { st with current_question := q, robot_responses := [],
                       messages := [], next_robot := "librarian" },
             List.replicate 10 "librarian")) := by
  refine ⟨?_, ?_, ?_, ?_⟩
  · intro mb
    unfold Langgraph.process_book
    simp [Langgraph.librarian_node, Langgraph.initState]
  · intro mb st
    unfold GraphFlow.read_book GraphFlow.librarianWork
    simp
    split <;> rfl
  · intro q
    constructor
    · rw [Langgraph.askFinal_eq, Langgraph.king_rel]
      unfold Langgraph.preKing
      rw [Langgraph.branchStep_rel, Langgraph.detective_rel]
      simp [Langgraph.librarian_node, Langgraph.initState]
    · rw [Langgraph.askFinal_eq]
      exact Langgraph.king_answer_ne _
  · intro st q hbc
    have h := GraphFlow.askLoop_idle 10
      { st with current_question := q, robot_responses := [],
                messages := [], next_robot := "librarian" } hbc rfl []
    simpa [GraphFlow.ask_question] using h

/-- C7 witness: from the kingdom state left by ingesting the empty
document, a concrete subsequent ask runs ten idle librarian steps, returns
normally, and its answer is the stale empty one. -/
theorem c7_empty_ingest_witness :
    (GraphFlow.read_book none GraphFlow.emptyState "").2.book_content = "" ∧
    GraphFlow.ask_question none
        (GraphFlow.read_book none GraphFlow.emptyState "").2 "what happens" =
      .ok (none,
           { (GraphFlow.read_book none GraphFlow.emptyState "").2 with
               current_question := "what happens", robot_responses := [],
               messages := [], next_robot := "librarian" },
           List.replicate 10 "librarian") ∧
    GraphFlow.flowAnswerOf (GraphFlow.ask_question none
      (GraphFlow.read_book none GraphFlow.emptyState "").2 "what happens") = "" :=
  ⟨by decide,
   c7_empty_ingest_amended.2.2.2
     (GraphFlow.read_book none GraphFlow.emptyState "").2 "what happens"
     (by decide),
   by decide⟩

/-! ## Report-structure lemmas for the LangGraph king node -/

namespace Langgraph

/-- The detective node does not touch the writer response. -/
theorem detective_wriresp (st : BookRobotState) :
    (detective_node st).writer_response = st.writer_response := rfl

/-- The detective node does not touch the wisdom response. -/
theorem detective_wisresp (st : BookRobotState) :
    (detective_node st).wisdom_response = st.wisdom_response := rfl

/-- The librarian node does not touch the writer response. -/
theorem librarian_wriresp (mb : Option (List String)) (st : BookRobotState) :
    (librarian_node mb st).2.writer_response = st.writer_response := by
  unfold librarian_node
  split <;> rfl

/-- The librarian node does not touch the wisdom response. -/
theorem librarian_wisresp (mb : Option (List String)) (st : BookRobotState) :
    (librarian_node mb st).2.wisdom_response = st.wisdom_response := by
  unfold librarian_node
  split <;> rfl

/-- The wisdom node does not touch the librarian's report. -/
theorem wisdom_libresp (st : BookRobotState) :
    (wisdom_node st).librarian_response = st.librarian_response := by
  simp only [wisdom_node]

/-- The wisdom node does not touch the detective's report. -/
theorem wisdom_detresp (st : BookRobotState) :
    (wisdom_node st).detective_response = st.detective_response := by
  simp only [wisdom_node]

/-- The writer node does not touch the librarian's report. -/
theorem writer_libresp (st : BookRobotState) :
    (writer_node st).librarian_response = st.librarian_response := by
  simp only [writer_node]

/-- The writer node does not touch the detective's report. -/
theorem writer_detresp (st : BookRobotState) :
    (writer_node st).detective_response = st.detective_response := by
  simp only [writer_node]

/-- The king's `team_reports` list on the state reaching it: always exactly
three entries — the librarian's, the detective's, and the taken branch's —
in that fixed order; the untaken branch contributes nothing. -/
theorem preKing_reports (mb : Option (List String)) (q : String) :
    king_team_reports (preKing mb q) =
      ["📚 **Librarian**: " ++ (preKing mb q).librarian_response,
       "🕵️ **Detective**: " ++ (preKing mb q).detective_response,
       (if route_after_detective (initState q "") = "wisdom"
        then "🧠 **Wisdom**: " ++ (preKing mb q).wisdom_response
        else "✍️ **Writer**: " ++ (preKing mb q).writer_response)] := by
  rcases route_cases (detective_node (librarian_node mb (initState q "")).2)
    with hb | hb
  · have hpk : preKing mb q =
        wisdom_node (detective_node (librarian_node mb (initState q "")).2) := by
      unfold preKing branchStep
      rw [hb]
      simp
    have hroute : route_after_detective (initState q "") = "wisdom" := by
      rw [← route_on_run mb q]
      exact hb
    have hlib : ¬ (preKing mb q).librarian_response = "" := by
      rw [hpk, wisdom_libresp, detective_libresp]
      exact librarian_resp_ne mb _
    have hdet : ¬ (preKing mb q).detective_response = "" := by
      rw [hpk, wisdom_detresp]
      exact detective_resp_ne _
    have hwri : (preKing mb q).writer_response = "" := by
      rw [hpk, wisdom_wriresp, detective_wriresp, librarian_wriresp]
      rfl
    have hwis : ¬ (preKing mb q).wisdom_response = "" := by
      rw [hpk]
      exact wisdom_resp_ne _
    simp [king_team_reports, hroute, hlib, hdet, hwri, hwis]
  · have hpk : preKing mb q =
        writer_node (detective_node (librarian_node mb (initState q "")).2) := by
      unfold preKing branchStep
      rw [hb]
      simp
    have hroute : route_after_detective (initState q "") = "writer" := by
      rw [← route_on_run mb q]
      exact hb
    have hlib : ¬ (preKing mb q).librarian_response = "" := by
      rw [hpk, writer_libresp, detective_libresp]
      exact librarian_resp_ne mb _
    have hdet : ¬ (preKing mb q).detective_response = "" := by
      rw [hpk, writer_detresp]
      exact detective_resp_ne _
    have hwis : (preKing mb q).wisdom_response = "" := by
      rw [hpk, writer_wisresp, detective_wisresp, librarian_wisresp]
      rfl
    have hwri : ¬ (preKing mb q).writer_response = "" := by
      rw [hpk]
      exact writer_resp_ne _
    simp [king_team_reports, hroute, hlib, hdet, hwri, hwis]

end Langgraph

/-- C8 counterexample: the final answer does not begin with the literal
restated question — it begins with the fixed royal banner; the question
only appears after it. -/
theorem c8_synthesis_counterexample :
    pyStartswith ((Langgraph.askFinal none "who is here").final_answer)
      "who is here" = false ∧
    pyStartswith ((Langgraph.askFinal none "who is here").final_answer)
      "👑 **ROYAL TEAM RESPONSE**" = true := by
  constructor
  · decide
  · decide

/-- C8 (amended): the king concatenates the non-empty reports in the fixed
order librarian, detective, writer-or-wisdom (exactly one branch entry,
never the untaken branch's), and the final answer is the fixed header —
which restates the literal question after the banner, not at the very
start — followed by the joined reports; synthesis is total, so absent
entries cannot make it fail.  In the message-flow implementation the
responses dict holds exactly the keys librarian, detective and the taken
branch, in that insertion order. -/
theorem c8_synthesis :
    (∀ (mb : Option (List String)) (q : String),
      Langgraph.askFinal mb q = Langgraph.king_node (Langgraph.preKing mb q) ∧
      Langgraph.king_team_reports (Langgraph.preKing mb q) =
        ["📚 **Librarian**: " ++ (Langgraph.preKing mb q).librarian_response,
         "🕵️ **Detective**: " ++ (Langgraph.preKing mb q).detective_response,
         (if Langgraph.route_after_detective (Langgraph.initState q "") = "wisdom"
          then "🧠 **Wisdom**: " ++ (Langgraph.preKing mb q).wisdom_response
          else "✍️ **Writer**: " ++ (Langgraph.preKing mb q).writer_response)] ∧
      (Langgraph.king_node (Langgraph.preKing mb q)).final_answer =
        "👑 **ROYAL TEAM RESPONSE**\n\n**Your Question**: " ++ q ++
          "\n\n**Team Analysis Summary**:\n" ++
          String.intercalate "\n"
            (Langgraph.king_team_reports (Langgraph.preKing mb q)) ++
          "\n\n**Final Royal Answer**: Based on my expert team\x27s collaborative analysis, here is the comprehensive response to your inquiry about the book.") ∧
    (∀ (idx : List String) (st : GraphFlow.RobotKingdomState) (q : String),
      ¬ q = "" → ¬ pySplitWs (pyLower q) = [] →
      (GraphFlow.flowStateOf
          (GraphFlow.ask_question (some idx) st q)).robot_responses.map
        Prod.fst =
        ["librarian", "detective", (GraphFlow.detectiveAnalysis (pyLower q)).2]) := by
  constructor
  · intro mb q
    refine ⟨Langgraph.askFinal_eq mb q, Langgraph.preKing_reports mb q, ?_⟩
    have hk : (Langgraph.king_node (Langgraph.preKing mb q)).final_answer =
        "👑 **ROYAL TEAM RESPONSE**\n\n**Your Question**: " ++
          (Langgraph.preKing mb q).question ++
          "\n\n**Team Analysis Summary**:\n" ++
          String.intercalate "\n"
            (Langgraph.king_team_reports (Langgraph.preKing mb q)) ++
          "\n\n**Final Royal Answer**: Based on my expert team\x27s collaborative analysis, here is the comprehensive response to your inquiry about the book." := by
      simp only [Langgraph.king_node]
    rw [hk, Langgraph.preKing_question]
  · intro idx st q hq hsp
    rw [GraphFlow.flow_run_shape idx st q hq hsp]
    simp only [GraphFlow.flowStateOf]
    exact GraphFlow.canon_responses idx q hq hsp

/-- C8 witness: the message-flow conjunct applied at a concrete run. -/
theorem c8_synthesis_witness :
    (¬ "why" = "") ∧ (¬ pySplitWs (pyLower "why") = []) ∧
    (GraphFlow.flowStateOf (GraphFlow.ask_question (some ["a"])
        GraphFlow.emptyState "why")).robot_responses.map Prod.fst =
      ["librarian", "detective", (GraphFlow.detectiveAnalysis (pyLower "why")).2] :=
  ⟨by decide, by decide,
   c8_synthesis.2 ["a"] GraphFlow.emptyState "why" (by decide) (by decide)⟩

/-- C9 (confirmed): asking the same question twice against an unchanged
index is idempotent.  A LangGraph ask never modifies the memory box, so a
repeated ask is the identical computation (same type, branch and answer);
a message-flow ask with a built index and a non-blank question leaves the
index unchanged and a second ask from the resulting kingdom state yields
the same trace (hence branch) and the same final answer. -/
theorem c9_idempotence :
    (∀ (mb : Option (List String)) (q : String),
      Langgraph.askMb mb q = mb ∧
      Langgraph.ask_question (Langgraph.askMb mb q) q =
        Langgraph.ask_question mb q) ∧
    (∀ (idx : List String) (st : GraphFlow.RobotKingdomState) (q : String),
      ¬ q = "" → ¬ pySplitWs (pyLower q) = [] →
      GraphFlow.flowMbOf (GraphFlow.ask_question (some idx) st q) = some idx ∧
      GraphFlow.flowAnswerOf (GraphFlow.ask_question (some idx)
          (GraphFlow.flowStateOf (GraphFlow.ask_question (some idx) st q)) q) =
        GraphFlow.flowAnswerOf (GraphFlow.ask_question (some idx) st q) ∧
      GraphFlow.flowTraceOf (GraphFlow.ask_question (some idx)
          (GraphFlow.flowStateOf (GraphFlow.ask_question (some idx) st q)) q) =
        GraphFlow.flowTraceOf (GraphFlow.ask_question (some idx) st q)) := by
  constructor
  · intro mb q
    refine ⟨Langgraph.ask_keeps_mb mb q, ?_⟩
    rw [Langgraph.ask_keeps_mb]
  · intro idx st q hq hsp
    have h1 := GraphFlow.flow_run_shape idx st q hq hsp
    have h2 := GraphFlow.flow_run_shape idx
      (GraphFlow.flowStateOf (GraphFlow.ask_question (some idx) st q)) q hq hsp
    refine ⟨?_, ?_, ?_⟩
    · unfold GraphFlow.flowMbOf
      rw [h1]
    · unfold GraphFlow.flowAnswerOf
      rw [h2, h1]
      simp only [GraphFlow.flowStateOf]
    · rw [h2, h1]
      simp only [GraphFlow.flowTraceOf]

/-- C9 witness: both parts instantiated at a concrete index and the
question "why". -/
theorem c9_idempotence_witness :
    (¬ "why" = "") ∧ (¬ pySplitWs (pyLower "why") = []) ∧
    Langgraph.askMb (some ["a"]) "why" = some ["a"] ∧
    GraphFlow.flowMbOf (GraphFlow.ask_question (some ["a"])
      GraphFlow.emptyState "why") = some ["a"] ∧
    GraphFlow.flowAnswerOf (GraphFlow.ask_question (some ["a"])
        (GraphFlow.flowStateOf (GraphFlow.ask_question (some ["a"])
          GraphFlow.emptyState "why")) "why") =
      GraphFlow.flowAnswerOf (GraphFlow.ask_question (some ["a"])
        GraphFlow.emptyState "why") :=
  ⟨by decide, by decide, (c9_idempotence.1 (some ["a"]) "why").1,
   (c9_idempotence.2 ["a"] GraphFlow.emptyState "why" (by decide)
     (by decide)).1,
   (c9_idempotence.2 ["a"] GraphFlow.emptyState "why" (by decide)
     (by decide)).2.1⟩

/-- C10 (confirmed): once an index exists, every later ingest — with any
document — is guarded off by the index's presence and leaves the index
unchanged in both implementations; subsequent retrieval still queries only
the originally indexed chunks. -/
theorem c10_reingest_noop :
    (∀ (idx : List String) (doc : String),
      (Langgraph.process_book (some idx) doc).1 = some idx) ∧
    (∀ (idx : List String) (st : GraphFlow.RobotKingdomState) (doc : String),
      (GraphFlow.read_book (some idx) st doc).1 = some idx) ∧
    (∀ (idx : List String) (q : String),
      Langgraph.askMb (some idx) q = some idx ∧
      (Langgraph.askFinal (some idx) q).relevant_info =
        (if ¬ q = "" then String.intercalate "\n\n" (simSearch idx q 3)
         else "")) := by
  refine ⟨?_, ?_, ?_⟩
  · intro idx doc
    unfold Langgraph.process_book
    simp [Langgraph.librarian_node, Langgraph.initState]
  · intro idx st doc
    unfold GraphFlow.read_book GraphFlow.librarianWork
    simp
    split <;> rfl
  · intro idx q
    refine ⟨Langgraph.ask_keeps_mb _ _, ?_⟩
    rw [Langgraph.askFinal_eq, Langgraph.king_rel]
    unfold Langgraph.preKing
    rw [Langgraph.branchStep_rel, Langgraph.detective_rel]
    simp [Langgraph.librarian_node, Langgraph.initState]
    by_cases hq : q = "" <;> simp [hq]
